import Mathlib

/-!
Verification of the long-tasks audit core of the lighthouse repository
(src/lighthouse-core/audits/long-tasks.js and
src/lighthouse-core/audits/layout-shift-elements.js).

The embedding models the task selection and attribution pipeline:

- a Task record mirrors the fields of LH.Artifacts.TaskNode that the audit
  reads (startTime, duration, selfTime, parent, unbounded, attributableURLs,
  group.label, event.name); numeric fields are modelled as rationals and the
  parent back-reference as an optional reference id, since the audit only
  tests it for truthiness;
- getAttributableURLForTask follows long-tasks.js lines 160-173 (identical to
  layout-shift-elements.js lines 135-148), including the JavaScript
  truthiness semantics of jsURL || fallbackURL and of !attributableURL, which
  treat the empty string like a missing value;
- the selector follows long-tasks.js lines 55-58: filter, then a stable
  descending sort by duration (Array.prototype.sort is stable and the
  comparator (a, b) => b.duration - a.duration orders by descending
  duration), then slice(0, 20).  The stable sort is modelled by
  List.insertionSort with the relation durGE;
- audit assembles the rows, the displayValue and the constant score 1 as in
  long-tasks.js lines 60-86; displayValueString renders the ICU plural
  message of UIStrings.displayValue (lines 21-24) for a positive count;
- auditStateful re-runs the same pipeline over an explicit store of array
  objects, making the JavaScript aliasing visible: the spread [...tasks]
  allocates a fresh array, .filter and .slice allocate fresh arrays, and
  .sort mutates the array object it is called on in place.  Task records are
  modelled as immutable values because the source never writes a task field.
-/

namespace LH

/-- Group label carrier: the audit reads task.group.label. -/
structure TaskGroup where
  label : String
deriving Repr, DecidableEq

/-- Event carrier: the audit reads task.event.name. -/
structure TaskEvent where
  name : String
deriving Repr, DecidableEq

/-- Task record with the fields of LH.Artifacts.TaskNode read by the audit. -/
structure Task where
  startTime : ℚ
  duration : ℚ
  selfTime : ℚ
  parent : Option Nat
  unbounded : Bool
  attributableURLs : List String
  group : TaskGroup
  event : TaskEvent
deriving Repr, DecidableEq

/-- Output row of the audit table: url, group, start, self, duration. -/
structure AttributedRow where
  url : String
  group : String
  start : ℚ
  self : ℚ
  duration : ℚ
deriving Repr, DecidableEq

/-- Result record of the audit: score, the table items, and displayValue. -/
structure AuditProduct where
  score : ℚ
  results : List AttributedRow
  displayValue : Option String
deriving Repr, DecidableEq

/-- Ordering used by the sort comparator (a, b) => b.duration - a.duration:
a task precedes another when its duration is at least as large. -/
def durGE (a b : Task) : Prop := b.duration ≤ a.duration

instance : DecidableRel durGE :=
  fun a b => inferInstanceAs (Decidable (b.duration ≤ a.duration))

instance : IsTotal Task durGE := ⟨fun a b => le_total b.duration a.duration⟩

instance : IsTrans Task durGE := ⟨fun _ _ _ h1 h2 => le_trans h2 h1⟩

/-- BROWSER_TASK_NAMES_SET of long-tasks.js lines 115-117. -/
def BROWSER_TASK_NAMES_SET : List String :=
  ["CpuProfiler::StartProfiling"]

/-- BROWSER_GC_TASK_NAMES_SET of long-tasks.js lines 120-124. -/
def BROWSER_GC_TASK_NAMES_SET : List String :=
  ["V8.GCCompactor", "MajorGC", "MinorGC"]

/-- Event-name classification chain of long-tasks.js lines 167-169. -/
def classifyEventName (name : String) : String :=
  if BROWSER_TASK_NAMES_SET.contains name then "Browser"
  else if BROWSER_GC_TASK_NAMES_SET.contains name then "Browser GC"
  else "Unattributable"

/-- JavaScript a || b on string-or-undefined values: the empty string is
falsy, so it is skipped in favour of b. -/
def jsOrString : Option String → Option String → Option String
  | some s, b => if s = "" then b else some s
  | none, b => b

/-- getAttributableURLForTask of long-tasks.js lines 160-173: jsURL is the
first attributable URL contained in the known-script set, fallbackURL the
first attributable URL; attributableURL = jsURL || fallbackURL; when
attributableURL is falsy (undefined or the empty string) or equals
about:blank, the event name is classified instead. -/
def getAttributableURLForTask (task : Task) (jsURLs : List String) : String :=
  let jsURL := task.attributableURLs.find? (fun url => jsURLs.contains url)
  let fallbackURL := task.attributableURLs.head?
  match jsOrString jsURL fallbackURL with
  | none => classifyEventName task.event.name
  | some u =>
      if u = "" ∨ u = "about:blank" then classifyEventName task.event.name
      else u

/-- Filter predicate of long-tasks.js line 56:
t.duration >= 50 && !t.unbounded && !t.parent. -/
def isLongTask (t : Task) : Bool :=
  decide (50 ≤ t.duration) && !t.unbounded && t.parent.isNone

/-- Filter predicate of long-tasks.js line 188 (and layout-shift-elements.js
line 163): t.duration >= 50 && t.unbounded === false && !t.parent. -/
def isLongTaskStrict (t : Task) : Bool :=
  decide (50 ≤ t.duration) && (t.unbounded == false) && t.parent.isNone

/-- Stable descending sort by duration, the model of
.sort((a, b) => b.duration - a.duration) on a JavaScript array. -/
def sortByDurationDesc (l : List Task) : List Task :=
  List.insertionSort durGE l

/-- Selector of long-tasks.js lines 55-58:
[...tasks].filter(...).sort(...).slice(0, 20). -/
def selectLongTasks (tasks : List Task) : List Task :=
  (sortByDurationDesc (tasks.filter isLongTask)).take 20

/-- Selector of long-tasks.js lines 187-189 (and layout-shift-elements.js
lines 162-164): [...tasks].sort(...).filter(...).slice(0, 20). -/
def selectLongTasksSortFirst (tasks : List Task) : List Task :=
  ((sortByDurationDesc tasks).filter isLongTaskStrict).take 20

/-- Row assembly of long-tasks.js lines 60-66. -/
def taskToRow (jsURLs : List String) (task : Task) : AttributedRow :=
  { url := getAttributableURLForTask task jsURLs
    group := task.group.label
    start := task.startTime
    self := task.selfTime
    duration := task.duration }

/-- Rendering of the ICU plural message UIStrings.displayValue of
long-tasks.js lines 21-24 at a given itemCount: the branch =1 yields the
singular phrase, the branch other interpolates the count. -/
def displayValueString (itemCount : Nat) : String :=
  if itemCount = 1 then "1 long task found"
  else toString itemCount ++ " long tasks found"

/-- Audit pipeline of long-tasks.js lines 55-86, as a function of the task
list and the known-script URL set: selected tasks are mapped to rows, the
displayValue is set only for a positive row count, and the score is 1. -/
def audit (tasks : List Task) (jsURLs : List String) : AuditProduct :=
  let longtasks := selectLongTasks tasks
  let results := longtasks.map (taskToRow jsURLs)
  { score := 1
    results := results
    displayValue :=
      if 0 < results.length then some (displayValueString results.length)
      else none }

/-- Store of JavaScript array objects: a reference is an index into the list
of array contents. -/
structure ArrayStore where
  arrays : List (List Task)
deriving Repr, DecidableEq

/-- Allocation of a fresh array object holding the given contents. -/
def allocArray (s : ArrayStore) (v : List Task) : ArrayStore × Nat :=
  ({ arrays := s.arrays ++ [v] }, s.arrays.length)

/-- Contents of the array object behind a reference. -/
def readArray (s : ArrayStore) (r : Nat) : List Task :=
  s.arrays.getD r []

/-- In-place overwrite of the array object behind a reference. -/
def writeArray (s : ArrayStore) (r : Nat) (v : List Task) : ArrayStore :=
  { arrays := s.arrays.set r v }

/-- Stateful rendering of long-tasks.js lines 55-66: the spread [...tasks]
copies the input array into a fresh object, .filter allocates a fresh array,
.sort sorts that fresh array in place, .slice allocates the final fresh
array, and .map builds the rows.  Returns the final store and the rows. -/
def auditStateful (s : ArrayStore) (rTasks : Nat) (jsURLs : List String) :
    ArrayStore × List AttributedRow :=
  let (s1, rCopy) := allocArray s (readArray s rTasks)
  let (s2, rFiltered) := allocArray s1 ((readArray s1 rCopy).filter isLongTask)
  let s3 := writeArray s2 rFiltered (sortByDurationDesc (readArray s2 rFiltered))
  let (s4, rLong) := allocArray s3 ((readArray s3 rFiltered).take 20)
  (s4, (readArray s4 rLong).map (taskToRow jsURLs))

/-- Resolution policy exactly as the specification sentence of claim C2
words it: first attributable URL contained in the known-script set, else the
first attributable URL; only when no candidate exists or the chosen
candidate equals about:blank does the event-name classification apply. -/
def claimedResolveURL (task : Task) (jsURLs : List String) : String :=
  let chosen : Option String :=
    match task.attributableURLs.find? (fun url => jsURLs.contains url) with
    | some u => some u
    | none => task.attributableURLs.head?
  match chosen with
  | none => classifyEventName task.event.name
  | some u =>
      if u = "about:blank" then classifyEventName task.event.name
      else u

/-- Resolution policy as amended: a known-script match counts only when it
is non-empty, and the fall through to event-name classification also fires
when the chosen candidate is the empty string. -/
def amendedResolveURL (task : Task) (jsURLs : List String) : String :=
  let chosen : Option String :=
    match task.attributableURLs.find? (fun url => jsURLs.contains url) with
    | some u => if u = "" then task.attributableURLs.head? else some u
    | none => task.attributableURLs.head?
  match chosen with
  | none => classifyEventName task.event.name
  | some u =>
      if u = "" ∨ u = "about:blank" then classifyEventName task.event.name
      else u

/-- Concrete top-level bounded task of a given duration with no attributable
URL, used by witnesses. -/
def mkTask (d : ℚ) : Task :=
  { startTime := 0, duration := d, selfTime := 0, parent := none,
    unbounded := false, attributableURLs := [], group := ⟨"other"⟩,
    event := ⟨"RunTask"⟩ }

/-- Concrete task whose only attributable URL is the empty string. -/
def emptyURLTask : Task :=
  { startTime := 0, duration := 100, selfTime := 0, parent := none,
    unbounded := false, attributableURLs := [""], group := ⟨"other"⟩,
    event := ⟨"RunTask"⟩ }

/-- Concrete task whose first attributable URL is the empty string and whose
second attributable URL lies outside the known-script set of the witness. -/
def emptyFirstURLTask : Task :=
  { startTime := 0, duration := 100, selfTime := 0, parent := none,
    unbounded := false,
    attributableURLs := ["", "https://example.com/other.js"],
    group := ⟨"other"⟩, event := ⟨"RunTask"⟩ }

/-- Concrete store holding one array object, used by the frame witness. -/
def smallStore : ArrayStore := { arrays := [[mkTask 100]] }

theorem isLongTaskStrict_eq_isLongTask (t : Task) : isLongTaskStrict t = isLongTask t := by
  cases h : t.unbounded <;> simp [isLongTask, isLongTaskStrict, h]

theorem sorted_sortByDurationDesc (l : List Task) :
    List.Pairwise durGE (sortByDurationDesc l) :=
  List.sorted_insertionSort durGE l

theorem perm_sortByDurationDesc (l : List Task) :
    List.Perm (sortByDurationDesc l) l :=
  List.perm_insertionSort durGE l

theorem orderedInsert_eq_cons (a : Task) (l : List Task)
    (h : ∀ b ∈ l, durGE a b) : List.orderedInsert durGE a l = a :: l := by
  cases l with
  | nil => rfl
  | cons b t => simp [List.orderedInsert, h b (List.mem_cons_self b t)]

theorem filter_orderedInsert (p : Task → Bool) (a : Task) (l : List Task)
    (hs : List.Pairwise durGE l) :
    (List.orderedInsert durGE a l).filter p =
      if p a then List.orderedInsert durGE a (l.filter p) else l.filter p := by
  induction l with
  | nil =>
      cases hpa : p a <;> simp [List.orderedInsert, List.filter, hpa]
  | cons b l ih =>
      rw [List.pairwise_cons] at hs
      by_cases hab : durGE a b
      · have hall : ∀ y ∈ (b :: l).filter p, durGE a y := by
          intro y hy
          have hmem := (List.mem_filter.mp hy).1
          rcases List.mem_cons.mp hmem with hyb | hyl
          · exact hyb ▸ hab
          · exact le_trans (hs.1 y hyl) hab
        cases hpa : p a <;>
          simp [List.orderedInsert, hab, List.filter, hpa]
        exact (orderedInsert_eq_cons a _ hall).symm
      · cases hpa : p a <;> cases hpb : p b <;>
          simp [List.orderedInsert, hab, List.filter, hpa, hpb, ih hs.2]

theorem filter_sortByDurationDesc (p : Task → Bool) (l : List Task) :
    (sortByDurationDesc l).filter p = sortByDurationDesc (l.filter p) := by
  induction l with
  | nil => rfl
  | cons a l ih =>
      have hs : List.Pairwise durGE (List.insertionSort durGE l) :=
        sorted_sortByDurationDesc l
      show (List.orderedInsert durGE a (List.insertionSort durGE l)).filter p = _
      rw [filter_orderedInsert p a _ hs]
      cases hpa : p a <;>
        simp [sortByDurationDesc, List.filter, hpa, List.insertionSort] at ih ⊢ <;>
        rw [ih]

theorem listSet_after (l m : List (List Task)) (k : Nat) (v : List Task) :
    (l ++ m).set (l.length + k) v = l ++ m.set k v := by
  induction l with
  | nil => simp
  | cons x xs ih => simpa [Nat.succ_add] using ih

theorem listGetD_after (l m : List (List Task)) (k : Nat) :
    (l ++ m).getD (l.length + k) [] = m.getD k [] := by
  induction l with
  | nil => simp
  | cons x xs ih => simpa [Nat.succ_add] using ih

theorem listGetD_snoc (l : List (List Task)) (v : List Task) :
    (l ++ [v]).getD l.length [] = v := by
  simp

theorem listSet_snoc (l : List (List Task)) (b v : List Task) :
    (l ++ [b]).set l.length v = l ++ [v] := by
  simpa using listSet_after l [b] 0 v


theorem listGetElem_after (l m : List (List Task)) (k : Nat) :
    ((l ++ m)[l.length + k]?).getD ([] : List Task) = (m[k]?).getD [] := by
  induction l with
  | nil => simp
  | cons x xs ih => simpa [Nat.succ_add] using ih

theorem listGetElem_mid2 (l : List (List Task)) (a b : List Task) :
    ((l ++ [a, b])[l.length + 1]?).getD ([] : List Task) = b := by
  simpa using listGetElem_after l [a, b] 1

theorem listGetElem_mid3 (l : List (List Task)) (a b c : List Task) :
    ((l ++ [a, b, c])[l.length + 2]?).getD ([] : List Task) = c := by
  simpa using listGetElem_after l [a, b, c] 2

theorem listGetElemT_mid2 (l : List (List Task)) (a b : List Task)
    (h : l.length + 1 < (l ++ [a, b]).length) :
    (l ++ [a, b])[l.length + 1] = b := by
  rw [List.getElem_append_right (by simp)]
  simp

theorem listGetElemT_mid3 (l : List (List Task)) (a b c : List Task)
    (h : l.length + 2 < (l ++ [a, b, c]).length) :
    (l ++ [a, b, c])[l.length + 2] = c := by
  rw [List.getElem_append_right (by simp)]
  simp

/-- Claim C1: a task contributes an output row only if its parent is none,
its unbounded flag is false and its duration is at least 50; every output
row arises from a selected task satisfying all three filter conditions. -/
theorem audit_rows_only_filtered (tasks : List Task) (jsURLs : List String)
    (row : AttributedRow) (h : row ∈ (audit tasks jsURLs).results) :
    ∃ t : Task, t ∈ selectLongTasks tasks ∧ row = taskToRow jsURLs t ∧
      t.parent = none ∧ t.unbounded = false ∧ 50 ≤ t.duration := by
  have hres : (audit tasks jsURLs).results
      = (selectLongTasks tasks).map (taskToRow jsURLs) := rfl
  rw [hres] at h
  rcases List.mem_map.mp h with ⟨t, ht, hrow⟩
  have h1 : t ∈ sortByDurationDesc (tasks.filter isLongTask) :=
    List.take_subset 20 _ ht
  have h2 : t ∈ tasks.filter isLongTask :=
    ((perm_sortByDurationDesc _).mem_iff).mp h1
  have h3 : isLongTask t = true := (List.mem_filter.mp h2).2
  simp only [isLongTask, Bool.and_eq_true, decide_eq_true_eq,
    Bool.not_eq_true', Option.isNone_iff_eq_none] at h3
  exact ⟨t, ht, hrow.symm, h3.2, h3.1.2, h3.1.1⟩

/-- Claim C1 witness: the single row produced for one qualifying task comes
from a task satisfying the three filter conditions. -/
theorem audit_rows_only_filtered_witness :
    ∃ t : Task, t ∈ selectLongTasks [mkTask 100] ∧
      taskToRow [] (mkTask 100) = taskToRow [] t ∧
      t.parent = none ∧ t.unbounded = false ∧ 50 ≤ t.duration :=
  audit_rows_only_filtered [mkTask 100] [] (taskToRow [] (mkTask 100)) (by decide)

/-- Claim C2 counterexample: for the task whose only attributable URL is the
empty string and an empty known-script set, the precedence exactly as the
claim words it resolves the first candidate, the empty string, while the
code falls through to event-name classification and returns Unattributable;
the two resolutions differ, so the claim as stated is false here. -/
theorem claimedResolveURL_counterexample :
    claimedResolveURL emptyURLTask [] = "" ∧
    getAttributableURLForTask emptyURLTask [] = "Unattributable" ∧
    claimedResolveURL emptyURLTask [] ≠ getAttributableURLForTask emptyURLTask [] := by
  refine ⟨by decide, by decide, by decide⟩

/-- Claim C2 amended: the resolution precedence holds with the empty string
treated like a missing value, as JavaScript truthiness does: a known-script
match counts only when non-empty, and the fall through to event-name
classification also fires when the chosen candidate is the empty string. -/
theorem getAttributableURL_amended (task : Task) (jsURLs : List String) :
    getAttributableURLForTask task jsURLs = amendedResolveURL task jsURLs := by
  unfold getAttributableURLForTask amendedResolveURL jsOrString
  cases task.attributableURLs.find? (fun url => jsURLs.contains url) <;> rfl

/-- Claim C4: filtering then stable-sorting descending by duration then
taking the first 20 selects the same sequence as stable-sorting then
filtering then taking the first 20; the embedding types the unbounded field
as a boolean, under which the two filter predicates coincide. -/
theorem selectLongTasks_eq_sortFirst (tasks : List Task) :
    selectLongTasks tasks = selectLongTasksSortFirst tasks := by
  unfold selectLongTasks selectLongTasksSortFirst
  have h1 : (sortByDurationDesc tasks).filter isLongTaskStrict
      = (sortByDurationDesc tasks).filter isLongTask :=
    List.filter_congr (fun x _ => isLongTaskStrict_eq_isLongTask x)
  rw [h1, filter_sortByDurationDesc]

/-- Claim C7: the pipeline is deterministic; identical inputs produce
identical audit products, rows and order included. -/
theorem audit_deterministic (tasks₁ tasks₂ : List Task)
    (jsURLs₁ jsURLs₂ : List String)
    (ht : tasks₁ = tasks₂) (hu : jsURLs₁ = jsURLs₂) :
    audit tasks₁ jsURLs₁ = audit tasks₂ jsURLs₂ := by
  rw [ht, hu]

/-- Claim C7 witness: two runs on the same concrete input agree. -/
theorem audit_deterministic_witness :
    audit [mkTask 100] [] = audit [mkTask 100] [] :=
  audit_deterministic [mkTask 100] [mkTask 100] [] [] rfl rfl

/-- Claim C9: when the first attributable URL is the empty string and no
attributable URL is a member of the known-script set, the resolver does not
return the empty string; it falls through to event-name classification and
yields Browser, Browser GC or Unattributable. -/
theorem attribution_empty_first_url (task : Task) (jsURLs : List String)
    (h1 : task.attributableURLs.head? = some "")
    (h2 : ∀ u ∈ task.attributableURLs, jsURLs.contains u = false) :
    getAttributableURLForTask task jsURLs = classifyEventName task.event.name ∧
    getAttributableURLForTask task jsURLs ≠ "" ∧
    (getAttributableURLForTask task jsURLs = "Browser" ∨
      getAttributableURLForTask task jsURLs = "Browser GC" ∨
      getAttributableURLForTask task jsURLs = "Unattributable") := by
  have hfind : task.attributableURLs.find? (fun url => jsURLs.contains url) = none :=
    List.find?_eq_none.mpr (fun x hx => by rw [h2 x hx]; simp)
  have hmain : getAttributableURLForTask task jsURLs
      = classifyEventName task.event.name := by
    unfold getAttributableURLForTask
    rw [hfind, h1]
    simp [jsOrString]
  have hcls : classifyEventName task.event.name = "Browser" ∨
      classifyEventName task.event.name = "Browser GC" ∨
      classifyEventName task.event.name = "Unattributable" := by
    unfold classifyEventName
    split
    · exact Or.inl rfl
    split
    · exact Or.inr (Or.inl rfl)
    · exact Or.inr (Or.inr rfl)
  have hne : classifyEventName task.event.name ≠ "" := by
    rcases hcls with h | h | h <;> rw [h] <;> decide
  exact ⟨hmain, hmain ▸ hne, hmain ▸ hcls⟩

/-- Claim C9 witness: a concrete task with empty first URL and no
known-script match resolves to the event-name classification. -/
theorem attribution_empty_first_url_witness :
    getAttributableURLForTask emptyFirstURLTask ["https://known.js"]
      = classifyEventName emptyFirstURLTask.event.name ∧
    getAttributableURLForTask emptyFirstURLTask ["https://known.js"] ≠ "" ∧
    (getAttributableURLForTask emptyFirstURLTask ["https://known.js"] = "Browser" ∨
      getAttributableURLForTask emptyFirstURLTask ["https://known.js"] = "Browser GC" ∨
      getAttributableURLForTask emptyFirstURLTask ["https://known.js"] = "Unattributable") :=
  attribution_empty_first_url emptyFirstURLTask ["https://known.js"]
    (by decide) (by decide)

/-- Claim C10: the returned score is 1 for every input, independent of the
number, duration or attribution of the selected tasks. -/
theorem audit_score_eq_one (tasks : List Task) (jsURLs : List String) :
    (audit tasks jsURLs).score = 1 := rfl

/-- Claim C3: the output has at most 20 rows, row durations are
non-increasing, and when more than 20 tasks qualify exactly 20 rows are
returned and the selected tasks together with the dropped qualifying tasks
permute the qualifying tasks, every dropped duration at most every kept
duration. -/
theorem audit_cap_sorted_top20 (tasks : List Task) (jsURLs : List String) :
    (audit tasks jsURLs).results.length ≤ 20 ∧
    List.Pairwise (fun r s => s.duration ≤ r.duration) (audit tasks jsURLs).results ∧
    (20 < (tasks.filter isLongTask).length →
      (audit tasks jsURLs).results.length = 20 ∧
      ∃ rest : List Task,
        List.Perm (selectLongTasks tasks ++ rest) (tasks.filter isLongTask) ∧
        ∀ a ∈ selectLongTasks tasks, ∀ b ∈ rest, b.duration ≤ a.duration) := by
  have hres : (audit tasks jsURLs).results
      = (selectLongTasks tasks).map (taskToRow jsURLs) := rfl
  have hsorted : List.Pairwise durGE (sortByDurationDesc (tasks.filter isLongTask)) :=
    sorted_sortByDurationDesc _
  have hsel : List.Pairwise durGE (selectLongTasks tasks) :=
    List.Pairwise.sublist (List.take_sublist 20 _) hsorted
  refine ⟨?_, ?_, ?_⟩
  · rw [hres, List.length_map]
    show ((sortByDurationDesc (tasks.filter isLongTask)).take 20).length ≤ 20
    rw [List.length_take]
    exact min_le_left _ _
  · rw [hres]
    exact List.pairwise_map.mpr hsel
  · intro h20
    have hperm : List.Perm (sortByDurationDesc (tasks.filter isLongTask))
        (tasks.filter isLongTask) := perm_sortByDurationDesc _
    have hlen : (sortByDurationDesc (tasks.filter isLongTask)).length
        = (tasks.filter isLongTask).length := hperm.length_eq
    constructor
    · rw [hres, List.length_map]
      show ((sortByDurationDesc (tasks.filter isLongTask)).take 20).length = 20
      rw [List.length_take, hlen]
      exact min_eq_left (Nat.le_of_lt h20)
    · refine ⟨(sortByDurationDesc (tasks.filter isLongTask)).drop 20, ?_, ?_⟩
      · show List.Perm ((sortByDurationDesc (tasks.filter isLongTask)).take 20 ++
          (sortByDurationDesc (tasks.filter isLongTask)).drop 20) _
        rw [List.take_append_drop]
        exact hperm
      · have hsplit : List.Pairwise durGE
            ((sortByDurationDesc (tasks.filter isLongTask)).take 20 ++
              (sortByDurationDesc (tasks.filter isLongTask)).drop 20) := by
          rw [List.take_append_drop]
          exact hsorted
        have h3 := (List.pairwise_append.mp hsplit).2.2
        exact fun a ha b hb => h3 a ha b hb

/-- Claim C3 witness: with 21 identical qualifying tasks, exactly 20 rows
are returned and the kept and dropped tasks permute the qualifying ones. -/
theorem audit_cap_sorted_top20_witness :
    (audit (List.replicate 21 (mkTask 100)) []).results.length = 20 ∧
    ∃ rest : List Task,
      List.Perm (selectLongTasks (List.replicate 21 (mkTask 100)) ++ rest)
        ((List.replicate 21 (mkTask 100)).filter isLongTask) ∧
      ∀ a ∈ selectLongTasks (List.replicate 21 (mkTask 100)), ∀ b ∈ rest,
        b.duration ≤ a.duration :=
  (audit_cap_sorted_top20 (List.replicate 21 (mkTask 100)) []).2.2 (by decide)

/-- Claim C5: the displayValue is absent exactly when the row count is 0; at
count 1 it is the singular phrase, and above 1 the plural phrase with the
count interpolated. -/
theorem audit_displayValue_spec (tasks : List Task) (jsURLs : List String) :
    ((audit tasks jsURLs).displayValue = none ↔
      (audit tasks jsURLs).results.length = 0) ∧
    ((audit tasks jsURLs).results.length = 1 →
      (audit tasks jsURLs).displayValue = some "1 long task found") ∧
    (1 < (audit tasks jsURLs).results.length →
      (audit tasks jsURLs).displayValue =
        some (toString (audit tasks jsURLs).results.length ++ " long tasks found")) := by
  have hdv : (audit tasks jsURLs).displayValue =
      if 0 < (audit tasks jsURLs).results.length
      then some (displayValueString (audit tasks jsURLs).results.length)
      else none := rfl
  refine ⟨?_, ?_, ?_⟩
  · rw [hdv]
    rcases Nat.eq_zero_or_pos (audit tasks jsURLs).results.length with h | h
    · simp [h]
    · simp [h, Nat.pos_iff_ne_zero.mp h]
  · intro h1
    rw [hdv, h1]
    simp [displayValueString]
  · intro h1
    rw [hdv, if_pos (lt_trans Nat.zero_lt_one h1)]
    unfold displayValueString
    rw [if_neg (by omega)]

/-- Claim C5 witness: one qualifying task yields the singular phrase and two
qualifying tasks yield the plural phrase with the count interpolated. -/
theorem audit_displayValue_spec_witness :
    (audit [mkTask 100] []).displayValue = some "1 long task found" ∧
    (audit [mkTask 100, mkTask 60] []).displayValue =
      some (toString (audit [mkTask 100, mkTask 60] []).results.length ++
        " long tasks found") :=
  ⟨(audit_displayValue_spec [mkTask 100] []).2.1 (by decide),
    (audit_displayValue_spec [mkTask 100, mkTask 60] []).2.2 (by decide)⟩

/-- Claim C6: the row at each index of the output copies the resolved url,
the group label, the start time, the self time and the duration of the
selected task at the same index. -/
theorem audit_row_fields (tasks : List Task) (jsURLs : List String) (i : Nat)
    (t : Task) (ht : (selectLongTasks tasks)[i]? = some t) :
    (audit tasks jsURLs).results[i]? = some (taskToRow jsURLs t) ∧
    (taskToRow jsURLs t).url = getAttributableURLForTask t jsURLs ∧
    (taskToRow jsURLs t).group = t.group.label ∧
    (taskToRow jsURLs t).start = t.startTime ∧
    (taskToRow jsURLs t).self = t.selfTime ∧
    (taskToRow jsURLs t).duration = t.duration := by
  refine ⟨?_, rfl, rfl, rfl, rfl, rfl⟩
  have hres : (audit tasks jsURLs).results
      = (selectLongTasks tasks).map (taskToRow jsURLs) := rfl
  rw [hres, List.getElem?_map, ht]
  rfl

/-- Claim C6 witness: the single row for one concrete qualifying task copies
its fields. -/
theorem audit_row_fields_witness :
    (audit [mkTask 100] []).results[0]? = some (taskToRow [] (mkTask 100)) ∧
    (taskToRow [] (mkTask 100)).url =
      getAttributableURLForTask (mkTask 100) [] ∧
    (taskToRow [] (mkTask 100)).group = (mkTask 100).group.label ∧
    (taskToRow [] (mkTask 100)).start = (mkTask 100).startTime ∧
    (taskToRow [] (mkTask 100)).self = (mkTask 100).selfTime ∧
    (taskToRow [] (mkTask 100)).duration = (mkTask 100).duration :=
  audit_row_fields [mkTask 100] [] 0 (mkTask 100) (by decide)

theorem auditStateful_run (s : ArrayStore) (rTasks : Nat) (jsURLs : List String) :
    (auditStateful s rTasks jsURLs).1.arrays =
      ((s.arrays ++ [readArray s rTasks]) ++
        [sortByDurationDesc ((readArray s rTasks).filter isLongTask)]) ++
        [selectLongTasks (readArray s rTasks)] ∧
    (auditStateful s rTasks jsURLs).2 = (audit (readArray s rTasks) jsURLs).results := by
  constructor
  · simp [auditStateful, allocArray, writeArray, readArray,
      listGetD_snoc, listSet_snoc, listGetElem_mid2, listGetElem_mid3,
      listGetElemT_mid2, listGetElemT_mid3,
      selectLongTasks, sortByDurationDesc]
  · simp [auditStateful, allocArray, writeArray, readArray,
      listGetD_snoc, listSet_snoc, listGetElem_mid2, listGetElem_mid3,
      listGetElemT_mid2, listGetElemT_mid3,
      selectLongTasks, sortByDurationDesc, audit]

/-- Claim C8: the pipeline does not mutate its input: every array object that
existed in the store before the call, the input task array included, holds
the same contents afterwards, because the sort is performed on a freshly
allocated copy; the rows agree with the pure pipeline. -/
theorem auditStateful_preserves_inputs (s : ArrayStore) (rTasks : Nat)
    (jsURLs : List String) :
    (∀ i, i < s.arrays.length →
      readArray (auditStateful s rTasks jsURLs).1 i = readArray s i) ∧
    (auditStateful s rTasks jsURLs).2 = (audit (readArray s rTasks) jsURLs).results := by
  refine ⟨?_, (auditStateful_run s rTasks jsURLs).2⟩
  intro i hi
  have h := (auditStateful_run s rTasks jsURLs).1
  show (auditStateful s rTasks jsURLs).1.arrays.getD i [] = s.arrays.getD i []
  rw [h, List.append_assoc, List.append_assoc]
  exact List.getD_append _ _ _ _ hi

/-- Claim C8 witness: a store holding one concrete task array is unchanged
at its only reference by a run of the stateful pipeline. -/
theorem auditStateful_preserves_inputs_witness :
    readArray (auditStateful smallStore 0 []).1 0 = readArray smallStore 0 ∧
    (auditStateful smallStore 0 []).2 = (audit (readArray smallStore 0) []).results :=
  ⟨(auditStateful_preserves_inputs smallStore 0 []).1 0 (by decide),
    (auditStateful_preserves_inputs smallStore 0 []).2⟩

end LH
